import Mathlib

/-!
Verification development for the Crossref deposit generator
(`elifecrossref/generate.py`).  The Python module is shallowly embedded:
article/reference/dataset/component records become Lean structures whose
optional string fields mirror Python attributes that may be `None`, and the
functions below are direct translations of the source functions, keeping the
source names.  Output XML trees are modelled by `XmlNode`.  Helpers from
collaborating modules that are not part of the embedded source are modelled
from the specification and are marked as such in their doc comments.
-/

namespace Crossref

/-- Truthiness of an optional string, as Python evaluates it in an `if`:
`None` and the empty string are falsy, every other string is truthy. -/
def pyTruthy : Option String → Bool
  | none => false
  | some s => !(s == "")

/-- Truthiness of an optional integer, as Python evaluates it: `None` and `0`
are falsy. -/
def pyTruthyNat : Option Nat → Bool
  | none => false
  | some n => !(n == 0)

/-- Python `str.rstrip('.')`: removes every trailing period character. -/
def rstripDots (s : String) : String :=
  String.mk ((s.data.reverse.dropWhile (fun c => c == '.')).reverse)

/-- An element of the output tree: tag name, attributes, optional text
content, child elements.  Comments are represented with the pseudo tag
`#comment`. -/
inductive XmlNode where
  | mk (tag : String) (attrs : List (String × String)) (text : Option String) (children : List XmlNode)

/-- Tag name of a node. -/
def XmlNode.tag : XmlNode → String
  | .mk t _ _ _ => t

/-- Attributes of a node. -/
def XmlNode.attrs : XmlNode → List (String × String)
  | .mk _ a _ _ => a

/-- Text content of a node. -/
def XmlNode.text : XmlNode → Option String
  | .mk _ _ x _ => x

/-- Children of a node. -/
def XmlNode.children : XmlNode → List XmlNode
  | .mk _ _ _ c => c

mutual
/-- Number of elements with the given tag in a subtree (the node itself
included). -/
def countTag (t : String) : XmlNode → Nat
  | .mk tg _ _ ch => (if tg == t then 1 else 0) + countTagList t ch
/-- Number of elements with the given tag in a forest. -/
def countTagList (t : String) : List XmlNode → Nat
  | [] => 0
  | x :: xs => countTag t x + countTagList t xs
end

mutual
/-- Number of elements with the given tag and text in a subtree. -/
def countTagText (t : String) (x : Option String) : XmlNode → Nat
  | .mk tg _ tx ch => (if tg == t && tx == x then 1 else 0) + countTagTextList t x ch
/-- Number of elements with the given tag and text in a forest. -/
def countTagTextList (t : String) (x : Option String) : List XmlNode → Nat
  | [] => 0
  | n :: ns => countTagText t x n + countTagTextList t x ns
end

/-- Author entry of a bibliographic reference (Python dict with keys
`group-type`, `surname`, `given-names`, `collab`; a missing key reads as
`None`). -/
structure CitAuthor where
  group_type : Option String
  surname : Option String
  given_names : Option String
  collab : Option String

/-- Bibliographic reference record (the `ref` objects consumed by
`set_citation` and friends). -/
structure Citation where
  id : Option String
  publication_type : Option String
  source : Option String
  authors : List CitAuthor
  volume : Option String
  issue : Option String
  fpage : Option String
  elocation_id : Option String
  year : Option String
  year_numeric : Option Nat
  article_title : Option String
  data_title : Option String
  doi : Option String
  isbn : Option String
  accession : Option String
  pmid : Option String
  uri : Option String
  date_in_citation : Option String
  publisher_loc : Option String
  publisher_name : Option String
  version : Option String
  patent : Option String
  conf_name : Option String

/-- Modelled from the spec: `add_clean_tag` lives in the `tags` module, which
is not part of the embedded source.  The Rich-Text Reparser splices a node
with the given tag holding the sanitised fragment; for the plain-text
fragments reasoned about here the content is preserved unchanged. -/
def add_clean_tag_node (tag : String) (content : String) : XmlNode :=
  XmlNode.mk tag [] (some content) []

/-- Modelled from the spec: `add_inline_tag` lives in the `tags` module, which
is not part of the embedded source.  Same shape as `add_clean_tag_node`; the
inline/clean distinction does not change tag placement for plain text. -/
def add_inline_tag_node (tag : String) (content : String) : XmlNode :=
  XmlNode.mk tag [] (some content) []

/-- Translation of `filter_citation_authors`: authors with group-type
`author`, or the editors when there are no authors. -/
def filter_citation_authors (ref : Citation) : List CitAuthor :=
  let authors := ref.authors.filter (fun a => a.group_type == some "author")
  if authors.isEmpty then ref.authors.filter (fun a => a.group_type == some "editor") else authors

/-- Display name of one author inside `citation_author_line`: surname plus
given names when a surname is truthy, else the collaboration name, else the
empty string. -/
def author_display_name (a : CitAuthor) : String :=
  if pyTruthy a.surname then
    (a.surname.getD "") ++ (if pyTruthy a.given_names then " " ++ a.given_names.getD "" else "")
  else if pyTruthy a.collab then a.collab.getD ""
  else ""

/-- Translation of `citation_author_line`: display names of all authors
(regardless of group-type), the empty ones dropped, joined with `", "`;
`None` when no name survives. -/
def citation_author_line (ref : Citation) : Option String :=
  let names := (ref.authors.map author_display_name).filter (fun n => !(n == ""))
  if names.isEmpty then none else some (String.intercalate ", " names)

/-- Translation of `citation_publisher`: `location: name` joined with `": "`
over the parts that are not `None`, produced when either part is truthy. -/
def citation_publisher (ref : Citation) : Option String :=
  if pyTruthy ref.publisher_loc || pyTruthy ref.publisher_name then
    some (String.intercalate ": " ([ref.publisher_loc, ref.publisher_name].filterMap id))
  else none

/-- Translation of `citation_uri`: the uri when truthy, with
`" [Accessed <date>]"` appended when the date-in-citation annotation is
truthy; `None` when the assembled string is empty. -/
def citation_uri (ref : Citation) : Option String :=
  let c0 := if pyTruthy ref.uri then ref.uri.getD "" else ""
  let c1 := if pyTruthy ref.date_in_citation then
    c0 ++ " [Accessed " ++ ref.date_in_citation.getD "" ++ "]" else c0
  if c1 == "" then none else some c1

/-- Translation of `do_unstructured_citation`: publication types always given
an unstructured citation, plus `preprint` without a doi and `report` without
an isbn. -/
def do_unstructured_citation (ref : Citation) : Bool :=
  (pyTruthy ref.publication_type &&
    ["confproc", "patent", "software", "thesis", "web", "webpage"].contains
      (ref.publication_type.getD "")) ||
  (pyTruthy ref.publication_type && ["preprint"].contains (ref.publication_type.getD "") &&
    ref.doi == none) ||
  (pyTruthy ref.publication_type && ["report"].contains (ref.publication_type.getD "") &&
    ref.isbn == none)

/-- Publication types for which `set_unstructured_citation` assembles its
free-text content. -/
def unstructuredContentTypes : List String :=
  ["confproc", "patent", "preprint", "report", "software", "thesis", "web", "webpage"]

/-- Content assembled by `set_unstructured_citation`: the values that are not
`None` among author line, year, article title, data title, publisher, source,
version, patent number, conference name and uri, each with trailing periods
stripped, joined with `". "`, a final period appended; the empty string when
the publication type is outside `unstructuredContentTypes`. -/
def unstructured_citation_text (ref : Citation) : String :=
  if pyTruthy ref.publication_type &&
      unstructuredContentTypes.contains (ref.publication_type.getD "") then
    String.intercalate ". "
      (([citation_author_line ref, ref.year, ref.article_title, ref.data_title,
         citation_publisher ref, ref.source, ref.version,
         ref.patent, ref.conf_name, citation_uri ref].filterMap id).map rstripDots) ++ "."
  else ""

/-- Translation of `set_unstructured_citation`: the `unstructured_citation`
node is added exactly when the assembled content is nonempty, through the
inline or the clean reparser path depending on `face_markup`. -/
def set_unstructured_citation_nodes (ref : Citation) (face_markup : Bool) : List XmlNode :=
  if !(unstructured_citation_text ref == "") then
    (if face_markup then [add_inline_tag_node "unstructured_citation" (unstructured_citation_text ref)]
     else [add_clean_tag_node "unstructured_citation" (unstructured_citation_text ref)])
  else []

/-- Schema versions for which `set_citation` writes the elocation id into the
`first_page` tag. -/
def legacyElocationVersions : List String := ["4.3.5", "4.3.7", "4.4.0"]

/-- Translation of the body of `set_citation`: the children of one `citation`
tag, in construction order. -/
def set_citation_children (ref : Citation) (face_markup : Bool) (ver : String) : List XmlNode :=
  (if pyTruthy ref.source then
     (if ref.publication_type == some "journal" then [XmlNode.mk "journal_title" [] ref.source []]
      else [XmlNode.mk "volume_title" [] ref.source []])
   else [])
  ++ (match filter_citation_authors ref with
      | [] => []
      | a :: _ =>
        if pyTruthy a.surname then [XmlNode.mk "author" [] a.surname []]
        else if pyTruthy a.collab then [add_clean_tag_node "author" (a.collab.getD "")]
        else [])
  ++ (if pyTruthy ref.volume then [XmlNode.mk "volume" [] (some ((ref.volume.getD "").take 31)) []] else [])
  ++ (if pyTruthy ref.issue then [XmlNode.mk "issue" [] ref.issue []] else [])
  ++ (if pyTruthy ref.fpage then [XmlNode.mk "first_page" [] ref.fpage []] else [])
  ++ (if pyTruthy ref.year || pyTruthyNat ref.year_numeric then
        [XmlNode.mk "cYear" []
          (some (if pyTruthyNat ref.year_numeric then toString (ref.year_numeric.getD 0)
                 else ref.year.getD "")) []]
      else [])
  ++ (if pyTruthy ref.article_title || pyTruthy ref.data_title then
        (if pyTruthy ref.article_title then [add_clean_tag_node "article_title" (ref.article_title.getD "")]
         else if pyTruthy ref.data_title then [add_clean_tag_node "article_title" (ref.data_title.getD "")]
         else [])
      else [])
  ++ (if pyTruthy ref.doi then [XmlNode.mk "doi" [] ref.doi []] else [])
  ++ (if pyTruthy ref.isbn then [XmlNode.mk "isbn" [] ref.isbn []] else [])
  ++ (if pyTruthy ref.elocation_id then
        (if legacyElocationVersions.contains ver then [XmlNode.mk "first_page" [] ref.elocation_id []]
         else [XmlNode.mk "elocation_id" [] ref.elocation_id []])
      else [])
  ++ (if do_unstructured_citation ref then set_unstructured_citation_nodes ref face_markup else [])

/-- Translation of `set_citation`: one `citation` node, keyed by the
reference id when truthy, else by its 1-based index. -/
def set_citation_node (ref : Citation) (ref_index : Nat) (face_markup : Bool) (ver : String) : XmlNode :=
  XmlNode.mk "citation"
    [("key", if pyTruthy ref.id then ref.id.getD "" else toString ref_index)]
    none
    (set_citation_children ref face_markup ver)

/-- Translation of `do_citation_related_item`: data-type references carrying
at least one truthy identifier among doi, accession, pmid, uri. -/
def do_citation_related_item (ref : Citation) : Bool :=
  if pyTruthy ref.publication_type && ref.publication_type == some "data" then
    pyTruthy ref.doi || pyTruthy ref.accession || pyTruthy ref.pmid || pyTruthy ref.uri
  else false

/-- Identifier choice made inside `set_citation_related_item`: the first
truthy field in the order doi, accession, pmid, uri, with its identifier
type. -/
def citation_related_item_identifier (ref : Citation) : Option (String × String) :=
  if pyTruthy ref.doi then some ("doi", ref.doi.getD "")
  else if pyTruthy ref.accession then some ("accession", ref.accession.getD "")
  else if pyTruthy ref.pmid then some ("pmid", ref.pmid.getD "")
  else if pyTruthy ref.uri then some ("uri", ref.uri.getD "")
  else none

/-- Translation of `set_related_item_work_relation` for the only supported
related-item kind, `inter_work_relation`. -/
def set_related_item_work_relation_node (relationship_type identifier_type text : String) : XmlNode :=
  XmlNode.mk "rel:inter_work_relation"
    [("relationship-type", relationship_type), ("identifier-type", identifier_type)] (some text) []

/-- Translation of the `rel:related_item` construction in
`set_citation_related_item`: optional description from the data title, then
at most one work relation with relationship type `references`. -/
def citation_related_item_node (ref : Citation) : XmlNode :=
  XmlNode.mk "rel:related_item" [] none
    ((if pyTruthy ref.data_title then [XmlNode.mk "rel:description" [] ref.data_title []] else [])
     ++ (match citation_related_item_identifier ref with
         | some (t, v) => [set_related_item_work_relation_node "references" t v]
         | none => []))

/-- Broken-down `time.struct_time` value: the components the generator
reads. -/
structure TmDate where
  tm_year : Nat
  tm_mon : Nat
  tm_mday : Nat
  tm_hour : Nat
  tm_min : Nat
  tm_sec : Nat

/-- Python `str(n).zfill(2)` for the two-digit strftime fields. -/
def zfill2 (n : Nat) : String :=
  if n < 10 then "0" ++ toString n else toString n

/-- Python `time.strftime("%Y%m%d%H%M%S", d)`. -/
def strftime_numeric (d : TmDate) : String :=
  toString d.tm_year ++ zfill2 d.tm_mon ++ zfill2 d.tm_mday
    ++ zfill2 d.tm_hour ++ zfill2 d.tm_min ++ zfill2 d.tm_sec

/-- Python `time.strftime("%Y-%m-%d %H:%M:%S", d)`. -/
def strftime_display (d : TmDate) : String :=
  toString d.tm_year ++ "-" ++ zfill2 d.tm_mon ++ "-" ++ zfill2 d.tm_mday
    ++ " " ++ zfill2 d.tm_hour ++ ":" ++ zfill2 d.tm_min ++ ":" ++ zfill2 d.tm_sec

/-- License attached to an article. -/
structure ArticleLicense where
  href : Option String

/-- Alternate self-resource location of an article. -/
structure SelfUri where
  content_type : Option String
  xlink_href : String

/-- Dataset record of an article. -/
structure Dataset where
  title : Option String
  dataset_type : Option String
  doi : Option String
  accession_id : Option String
  uri : Option String

/-- Permission record of a component. -/
structure Permission where
  copyright_statement : Option String
  license : Option String

/-- Component (sub-part) of an article.  `crossref_mime` models the result of
the external mime normalisation table on `mime_type`, and
`elife_component_id`/`elife_prefix1` model the external naming-convention
helper `elife_style_component_attributes`; all three collaborators live
outside the embedded source. -/
structure Component where
  id : String
  title : String
  subtitle : Option String
  mime_type : Option String
  crossref_mime : Option String
  permissions : List Permission
  doi : Option String
  elife_component_id : String
  elife_prefix1 : String

/-- Article aggregate consumed by the generator.  `elife_version_label`
models the external helper `elife_style_article_attributes`. -/
structure PoaArticle where
  doi : String
  manuscript : String
  journal_title : String
  journal_issn : String
  title : String
  volume : Option String
  elocation_id : Option String
  abstract : Option String
  digest : Option String
  license : Option ArticleLicense
  self_uri_list : List SelfUri
  datasets : List Dataset
  ref_list : List Citation
  component_list : List Component
  dates : List (String × TmDate)
  elife_version_label : String

/-- Run configuration (the options `generate.py` reads).  `batch_file_pre`
models the `batch_file_prefix` option. -/
structure CrossrefConfig where
  crossref_schema_version : String
  batch_file_pre : String
  generator : String
  depositor_name : String
  email_address : String
  registrant : String
  pub_date_types : List String
  year_of_first_volume : Option Nat
  reference_distribution_opts : Option String
  doi_pattern : Option String
  component_doi_pattern : String
  text_mining_pdf_pattern : Option String
  text_mining_xml_pattern : Option String
  elife_style_component_doi : Bool
  component_license_ref : String
  access_indicators_applies_to : List String
  archive_locations : List String
  face_markup : Bool
  jats_abstract : Bool
  elocation_id : Bool

/-- Translation of `has_license`: a license object must be present and its
href must be truthy. -/
def has_license (a : PoaArticle) : Bool :=
  match a.license with
  | none => false
  | some l => pyTruthy l.href

/-- Lookup of a named publication date (`Article.get_date`). -/
def get_date (a : PoaArticle) (date_type : String) : Option TmDate :=
  (a.dates.find? (fun d => d.1 == date_type)).map Prod.snd

/-- Modelled from the spec: `Article.get_self_uri` of the external article
model returns the first alternate resource location with the given
content-type tag. -/
def get_self_uri (a : PoaArticle) (content_type : String) : Option SelfUri :=
  a.self_uri_list.find? (fun u => u.content_type == some content_type)

/-- Translation of `CrossrefXML.get_pub_date`: the first configured date type
present on the article, defaulting to the run date. -/
def get_pub_date (cfg : CrossrefConfig) (run_date : TmDate) (a : PoaArticle) : TmDate :=
  (cfg.pub_date_types.findSome? (get_date a)).getD run_date

/-- Translation of `do_dataset_related_item`: at least one of accession id,
doi, uri is truthy. -/
def do_dataset_related_item (dataset : Dataset) : Bool :=
  pyTruthy dataset.accession_id || pyTruthy dataset.doi || pyTruthy dataset.uri

/-- Translation of `dataset_relationship_type`. -/
def dataset_relationship_type (dataset : Dataset) : String :=
  if dataset.dataset_type == some "prev_published_datasets" then "references"
  else "isSupplementedBy"

/-- Translation of the `rel:related_item` construction in `set_datasets`:
optional description from the dataset title, then one work relation for the
first identifier in the order doi, accession id, uri. -/
def dataset_related_item_node (dataset : Dataset) : XmlNode :=
  XmlNode.mk "rel:related_item" [] none
    ((if pyTruthy dataset.title then [XmlNode.mk "rel:description" [] dataset.title []] else [])
     ++ (if pyTruthy dataset.doi then
           [set_related_item_work_relation_node (dataset_relationship_type dataset) "doi"
             (dataset.doi.getD "")]
         else if pyTruthy dataset.accession_id then
           [set_related_item_work_relation_node (dataset_relationship_type dataset) "accession"
             (dataset.accession_id.getD "")]
         else if pyTruthy dataset.uri then
           [set_related_item_work_relation_node (dataset_relationship_type dataset) "uri"
             (dataset.uri.getD "")]
         else []))

/-- Translation of `do_relations_program`: some dataset or some reference
requires a related item. -/
def do_relations_program (poa_article : PoaArticle) : Bool :=
  poa_article.datasets.any do_dataset_related_item
    || poa_article.ref_list.any do_citation_related_item

/-- Related-item entries one article appends to the relations program, in
append order: dataset entries (from `set_datasets`) then citation entries
(from `set_citation_list`). -/
def article_relation_entries (a : PoaArticle) : List XmlNode :=
  (a.datasets.filter do_dataset_related_item).map dataset_related_item_node
  ++ (a.ref_list.filter do_citation_related_item).map citation_related_item_node

/-- Python `str` applied to a format substitution value: `None` renders as
the string `None`. -/
def pyStr : Option String → String
  | none => "None"
  | some s => s

/-- Recursive worker for `pyFormat`: copies characters, and when an opening
brace is met collects the placeholder name up to the closing brace and emits
the substitution value. -/
def formatGo (subst : List (String × String)) : Bool → List Char → List Char → List Char
  | _, _, [] => []
  | false, _, c :: rest =>
    if c == Char.ofNat 123 then formatGo subst true [] rest
    else c :: formatGo subst false [] rest
  | true, acc, c :: rest =>
    if c == Char.ofNat 125 then
      (((subst.find? (fun kv => kv.1 == String.mk acc.reverse)).map Prod.snd).getD "").data
        ++ formatGo subst false [] rest
    else formatGo subst true (c :: acc) rest

/-- Python `str.format` with named placeholders, for the placeholder names
actually used by the URL templates. -/
def pyFormat (pattern : String) (subst : List (String × String)) : String :=
  String.mk (formatGo subst false [] pattern.data)

/-- Substitution set used for article-level URL templates. -/
def article_pattern_subst (a : PoaArticle) : List (String × String) :=
  [("doi", a.doi), ("manuscript", a.manuscript), ("volume", pyStr a.volume),
   ("version", a.elife_version_label)]

/-- Translation of the `Article` branch of `generate_resource_url`: format
the template when it is not the empty string, else fall back to the first
alternate resource location without a content type, else `None`.  (With a
missing template the source would raise; the embedding returns `None`.) -/
def generate_resource_url_article (a : PoaArticle) (pat : Option String) : Option String :=
  if !(pat == some "") then pat.map (fun p => pyFormat p (article_pattern_subst a))
  else (a.self_uri_list.find? (fun u => u.content_type == none)).map SelfUri.xlink_href

/-- Substitution set used for the component URL template. -/
def component_pattern_subst (a : PoaArticle) (component_id prefix1 : String) :
    List (String × String) :=
  [("doi", a.doi), ("manuscript", a.manuscript), ("volume", pyStr a.volume),
   ("prefix1", prefix1), ("id", component_id)]

/-- Translation of the `Component` branch of `generate_resource_url`. -/
def generate_resource_url_component (cfg : CrossrefConfig) (a : PoaArticle) (comp : Component) :
    Option String :=
  let cid := if cfg.elife_style_component_doi then comp.elife_component_id else comp.id
  let p1 := if cfg.elife_style_component_doi then comp.elife_prefix1 else ""
  some (pyFormat cfg.component_doi_pattern (component_pattern_subst a cid p1))

/-- Translation of `do_set_collection_text_mining_xml`.  Note the source
compares the PDF template, not the XML one, against the empty string. -/
def do_set_collection_text_mining_xml (cfg : CrossrefConfig) : Bool :=
  pyTruthy cfg.text_mining_xml_pattern && !(cfg.text_mining_pdf_pattern == some "")

/-- Translation of `do_set_collection_text_mining_pdf`. -/
def do_set_collection_text_mining_pdf (cfg : CrossrefConfig) (a : PoaArticle) : Bool :=
  pyTruthy cfg.text_mining_pdf_pattern && !(cfg.text_mining_pdf_pattern == some "")
    && (get_self_uri a "pdf").isSome

/-- Translation of `do_set_collection`. -/
def do_set_collection (cfg : CrossrefConfig) (a : PoaArticle) (collection_property : String) : Bool :=
  if !(has_license a) then false
  else if collection_property == "text-mining" then
    do_set_collection_text_mining_xml cfg || do_set_collection_text_mining_pdf cfg a
  else false

/-- Translation of `set_collection` for the `text-mining` property: the
`collection` tag with its gated PDF and XML mining items. -/
def set_collection_nodes (cfg : CrossrefConfig) (a : PoaArticle) : List XmlNode :=
  if do_set_collection cfg a "text-mining" then
    [XmlNode.mk "collection" [("property", "text-mining")] none
      ((if do_set_collection_text_mining_pdf cfg a then
          [XmlNode.mk "item" [] none
            [XmlNode.mk "resource" [("mime_type", "application/pdf")]
              (generate_resource_url_article a cfg.text_mining_pdf_pattern) []]]
        else [])
       ++ (if do_set_collection_text_mining_xml cfg then
          [XmlNode.mk "item" [] none
            [XmlNode.mk "resource" [("mime_type", "application/xml")]
              (generate_resource_url_article a cfg.text_mining_xml_pattern) []]]
        else []))]
  else []

/-- Translation of `set_doi_data`: doi, resource, then the optional
text-mining collection. -/
def set_doi_data_node (cfg : CrossrefConfig) (a : PoaArticle) : XmlNode :=
  XmlNode.mk "doi_data" [] none
    ([XmlNode.mk "doi" [] (some a.doi) [],
      XmlNode.mk "resource" [] (generate_resource_url_article a cfg.doi_pattern) []]
     ++ set_collection_nodes cfg a)

/-- Translation of `set_component_permissions`: an access-indicator block for
a component, produced when a component license reference is configured and
some permission carries a copyright statement or license. -/
def set_component_permissions_nodes (cfg : CrossrefConfig) (permissions : List Permission) :
    List XmlNode :=
  if !(cfg.component_license_ref == "") then
    (if permissions.any (fun p => pyTruthy p.copyright_statement || pyTruthy p.license) then
      [XmlNode.mk "ai:program" [("name", "AccessIndicators")] none
        [XmlNode.mk "ai:license_ref" [] (some cfg.component_license_ref) []]]
     else [])
  else []

/-- Translation of `set_subtitle`. -/
def set_subtitle_nodes (cfg : CrossrefConfig) (comp : Component) : List XmlNode :=
  if pyTruthy comp.subtitle then
    (if cfg.face_markup then [add_inline_tag_node "subtitle" (comp.subtitle.getD "")]
     else [add_clean_tag_node "subtitle" (comp.subtitle.getD "")])
  else []

/-- Translation of the per-component body of `set_component_list`: titles,
optional format, optional permissions, and the doi-data block only when a
nonempty resource URL could be generated. -/
def component_node (cfg : CrossrefConfig) (a : PoaArticle) (comp : Component) : XmlNode :=
  XmlNode.mk "component" [("parent_relation", "isPartOf")] none
    ([XmlNode.mk "titles" [] none
        ([XmlNode.mk "title" [] (some comp.title) []] ++ set_subtitle_nodes cfg comp)]
     ++ (if pyTruthy comp.mime_type then
           (if pyTruthy comp.crossref_mime then
             [XmlNode.mk "format" [("mime_type", comp.crossref_mime.getD "")] none []]
            else [])
         else [])
     ++ (if !comp.permissions.isEmpty then set_component_permissions_nodes cfg comp.permissions
         else [])
     ++ (if pyTruthy comp.doi then
           (match generate_resource_url_component cfg a comp with
            | some u =>
              if !(u == "") then
                [XmlNode.mk "doi_data" [] none
                  [XmlNode.mk "doi" [] comp.doi [],
                   XmlNode.mk "resource" [] (some u) []]]
              else []
            | none => [])
         else []))

/-- Translation of `set_component_list`. -/
def set_component_list_nodes (cfg : CrossrefConfig) (a : PoaArticle) : List XmlNode :=
  if a.component_list.isEmpty then []
  else [XmlNode.mk "component_list" [] none (a.component_list.map (component_node cfg a))]

/-- Modelled from the spec: `eautils.remove_tag` of the external utils module
strips `ext-link` elements from the title keeping their text; the plain-text
titles reasoned about here are unchanged. -/
def remove_ext_link (s : String) : String := s

/-- Translation of `set_titles`. -/
def set_titles_node (cfg : CrossrefConfig) (a : PoaArticle) : XmlNode :=
  XmlNode.mk "titles" [] none
    [if cfg.face_markup then add_inline_tag_node "title" (remove_ext_link a.title)
     else add_clean_tag_node "title" (remove_ext_link a.title)]

/-- Modelled from the spec: the sanitise-and-remap pipeline of
`set_abstract_tag` (escaping, jats remapping or inline-tag stripping,
reparse) produces the abstract's content; the plain-text abstracts reasoned
about here pass through unchanged in both modes. -/
def abstract_converted_text (_cfg : CrossrefConfig) (s : String) : String := s

/-- Translation of `set_abstract`. -/
def set_abstract_nodes (cfg : CrossrefConfig) (a : PoaArticle) : List XmlNode :=
  if pyTruthy a.abstract then
    [XmlNode.mk "jats:abstract" [] (some (abstract_converted_text cfg (a.abstract.getD ""))) []]
  else []

/-- Translation of `set_digest`. -/
def set_digest_nodes (cfg : CrossrefConfig) (a : PoaArticle) : List XmlNode :=
  if pyTruthy a.digest then
    [XmlNode.mk "jats:abstract" [("abstract-type", "executive-summary")]
      (some (abstract_converted_text cfg (a.digest.getD ""))) []]
  else []

/-- Translation of `set_publication_date`. -/
def set_publication_date_node (pub_date : TmDate) : XmlNode :=
  XmlNode.mk "publication_date" [("media_type", "online")] none
    [XmlNode.mk "month" [] (some (zfill2 pub_date.tm_mon)) [],
     XmlNode.mk "day" [] (some (zfill2 pub_date.tm_mday)) [],
     XmlNode.mk "year" [] (some (toString pub_date.tm_year)) []]

/-- Translation of `set_access_indicators`. -/
def set_access_indicators_nodes (cfg : CrossrefConfig) (a : PoaArticle) : List XmlNode :=
  if !cfg.access_indicators_applies_to.isEmpty && has_license a then
    [XmlNode.mk "ai:program" [("name", "AccessIndicators")] none
      (cfg.access_indicators_applies_to.map (fun scope =>
        XmlNode.mk "ai:license_ref" [("applies_to", scope)]
          (a.license.bind ArticleLicense.href) []))]
  else []

/-- Translation of `set_archive_locations`. -/
def set_archive_locations_nodes (archive_locations : List String) : List XmlNode :=
  if !archive_locations.isEmpty then
    [XmlNode.mk "archive_locations" [] none
      (archive_locations.map (fun n => XmlNode.mk "archive" [("name", n)] none []))]
  else []

/-- Translation of `set_citation_list`: the `citation_list` tag is created
when the reference list is truthy, holding one citation per reference in
order, numbered from 1. -/
def set_citation_list_nodes (cfg : CrossrefConfig) (a : PoaArticle) : List XmlNode :=
  if a.ref_list.isEmpty then []
  else [XmlNode.mk "citation_list" [] none
    (a.ref_list.enum.map (fun p =>
      set_citation_node p.2 (p.1 + 1) cfg.face_markup cfg.crossref_schema_version))]

/-- Attributes of the `journal_article` tag. -/
def journal_article_attrs (cfg : CrossrefConfig) : List (String × String) :=
  [("publication_type", "full_text")]
  ++ (if pyTruthy cfg.reference_distribution_opts then
        [("reference_distribution_opts", cfg.reference_distribution_opts.getD "")]
      else [])

/-- Translation of the `publisher_item` block of `set_journal_article`. -/
def publisher_item_node (cfg : CrossrefConfig) (a : PoaArticle) : XmlNode :=
  XmlNode.mk "publisher_item" [] none
    ((if cfg.elocation_id && pyTruthy a.elocation_id then
        [XmlNode.mk "item_number" [("item_number_type", "article_number")] a.elocation_id []]
      else [])
     ++ [XmlNode.mk "identifier" [("id_type", "doi")] (some a.doi) []])

/-- Modelled from the spec: the contributor block is supplied as a ready
sub-tree by an external collaborating builder; modelled as one opaque
element. -/
def contributors_node (_a : PoaArticle) : XmlNode :=
  XmlNode.mk "contributors" [] none []

/-- Modelled from the spec: the funding block is supplied as a ready sub-tree
by an external collaborating builder; modelled as one opaque element. -/
def fundref_node (_a : PoaArticle) : XmlNode :=
  XmlNode.mk "fr:program" [] none []

/-- Translation of `set_journal_article`.  `with_program` says whether this
article's record receives the batch-level `rel:program` tag, and
`program_entries` are the related-item entries that tag ends up holding once
the whole batch has been processed (the tag object is mutated in place by
later appends). -/
def journal_article_node (cfg : CrossrefConfig) (run_date : TmDate) (with_program : Bool)
    (program_entries : List XmlNode) (a : PoaArticle) : XmlNode :=
  XmlNode.mk "journal_article" (journal_article_attrs cfg) none
    ([set_titles_node cfg a, contributors_node a]
     ++ set_abstract_nodes cfg a
     ++ set_digest_nodes cfg a
     ++ [set_publication_date_node (get_pub_date cfg run_date a),
         publisher_item_node cfg a,
         fundref_node a]
     ++ set_access_indicators_nodes cfg a
     ++ (if with_program then [XmlNode.mk "rel:program" [] none program_entries] else [])
     ++ set_archive_locations_nodes cfg.archive_locations
     ++ [set_doi_data_node cfg a]
     ++ set_citation_list_nodes cfg a
     ++ set_component_list_nodes cfg a)

/-- Translation of `set_journal_metadata`. -/
def journal_metadata_node (a : PoaArticle) : XmlNode :=
  XmlNode.mk "journal_metadata" [("language", "en")] none
    [XmlNode.mk "full_title" [] (some a.journal_title) [],
     XmlNode.mk "issn" [("media_type", "electronic")] (some a.journal_issn) []]

/-- Modelled from the spec: `eautils.calculate_journal_volume` computes a
volume from the publication year and the configured year of first volume; the
exact formula is delegated to the external utility and not specified, so a
representative arithmetic stands in. -/
def calculate_journal_volume (pub_date : TmDate) (year_of_first_volume : Nat) : String :=
  toString (pub_date.tm_year + 1 - year_of_first_volume)

/-- Text of the `volume` tag under `journal_issue`: the article's own volume
when truthy, else the computed one when a year of first volume is configured,
else no text. -/
def journal_volume_text (cfg : CrossrefConfig) (pub_date : TmDate) (a : PoaArticle) :
    Option String :=
  if pyTruthy a.volume then a.volume
  else if pyTruthyNat cfg.year_of_first_volume then
    some (calculate_journal_volume pub_date (cfg.year_of_first_volume.getD 0))
  else none

/-- Translation of the `journal_issue` block of `set_journal`. -/
def journal_issue_node (cfg : CrossrefConfig) (run_date : TmDate) (a : PoaArticle) : XmlNode :=
  XmlNode.mk "journal_issue" [] none
    [set_publication_date_node (get_pub_date cfg run_date a),
     XmlNode.mk "journal_volume" [] none
       [XmlNode.mk "volume" [] (journal_volume_text cfg (get_pub_date cfg run_date a) a) []]]

/-- Translation of `set_journal`: one journal record. -/
def journal_node (cfg : CrossrefConfig) (run_date : TmDate) (with_program : Bool)
    (program_entries : List XmlNode) (a : PoaArticle) : XmlNode :=
  XmlNode.mk "journal" [] none
    [journal_metadata_node a,
     journal_issue_node cfg run_date a,
     journal_article_node cfg run_date with_program program_entries a]

/-- Index of the article whose record receives the `rel:program` tag: the
`relations_program_tag` attribute lives on the `CrossrefXML` instance, so the
tag is created once per batch, inside the first article (in input order) for
which `do_relations_program` holds. -/
def relations_owner : List PoaArticle → Option Nat
  | [] => none
  | a :: rest =>
    if do_relations_program a then some 0 else (relations_owner rest).map (· + 1)

/-- Translation of `set_body`: one journal record per article.  Because the
single `rel:program` tag object keeps being appended to during later
articles' assembly, its final children are the concatenation of every
article's relation entries. -/
def set_body_node (cfg : CrossrefConfig) (run_date : TmDate) (arts : List PoaArticle) : XmlNode :=
  XmlNode.mk "body" [] none
    (arts.enum.map (fun p =>
      journal_node cfg run_date (relations_owner arts == some p.1)
        ((arts.map article_relation_entries).flatten) p.2))

/-- Modelled from the spec: `utils.clean_string` of the external utils module
cleans the manuscript identifier for use in the batch id; the plain
identifiers reasoned about here are unchanged. -/
def clean_string (s : String) : String := s

/-- Translation of the batch id computation in `CrossrefXML.__init__`. -/
def batch_id (cfg : CrossrefConfig) (pub_date : TmDate) (arts : List PoaArticle) : String :=
  let batch_doi := match arts with
    | [] => ""
    | a :: _ => clean_string a.manuscript ++ "-"
  cfg.batch_file_pre ++ batch_doi ++ strftime_numeric pub_date

/-- Translation of `set_depositor`. -/
def set_depositor_node (cfg : CrossrefConfig) : XmlNode :=
  XmlNode.mk "depositor" [] none
    [XmlNode.mk "depositor_name" [] (some cfg.depositor_name) [],
     XmlNode.mk "email_address" [] (some cfg.email_address) []]

/-- Translation of `set_head`. -/
def set_head_node (cfg : CrossrefConfig) (pub_date : TmDate) (arts : List PoaArticle) : XmlNode :=
  XmlNode.mk "head" [] none
    [XmlNode.mk "doi_batch_id" [] (some (batch_id cfg pub_date arts)) [],
     XmlNode.mk "timestamp" [] (some (strftime_numeric pub_date)) [],
     set_depositor_node cfg,
     XmlNode.mk "registrant" [] (some cfg.registrant) []]

/-- Translation of `set_root`: attributes of the `doi_batch` root, with the
trial-registry and relations namespaces omitted for the oldest schema
version. -/
def set_root_attrs (schema_version : String) : List (String × String) :=
  [("version", schema_version),
   ("xmlns", "http://www.crossref.org/schema/" ++ schema_version),
   ("xmlns:xsi", "http://www.w3.org/2001/XMLSchema-instance"),
   ("xmlns:fr", "http://www.crossref.org/fundref.xsd"),
   ("xmlns:ai", "http://www.crossref.org/AccessIndicators.xsd")]
  ++ (if !(schema_version == "4.3.5") then
        [("xmlns:ct", "http://www.crossref.org/clinicaltrials.xsd"),
         ("xmlns:rel", "http://www.crossref.org/relations.xsd")]
      else [])
  ++ [("xsi:schemaLocation",
        "http://www.crossref.org/schema/" ++ schema_version
          ++ " http://www.crossref.org/schemas/crossref" ++ schema_version ++ ".xsd"),
      ("xmlns:mml", "http://www.w3.org/1998/Math/MathML"),
      ("xmlns:jats", "http://www.ncbi.nlm.nih.gov/JATS1")]

/-- Translation of the generation comment added by `CrossrefXML.__init__`.
The comment reads the global wall clock (`time.strftime` with no time
argument, independent of the injected `pub_date`) and the repository's last
commit (`eautils.get_last_commit_to_master`); both global reads are explicit
parameters of the embedding. -/
def comment_node (cfg : CrossrefConfig) (global_now : TmDate) (last_commit : String) : XmlNode :=
  XmlNode.mk "#comment" []
    (some ("generated by " ++ cfg.generator ++ " at " ++ strftime_display global_now
      ++ " from version " ++ last_commit)) []

/-- Translation of the whole `CrossrefXML` build: root attributes, optional
generation comment, head, body. -/
def crossref_doc (cfg : CrossrefConfig) (arts : List PoaArticle) (pub_date : TmDate)
    (add_comment : Bool) (global_now : TmDate) (last_commit : String) : XmlNode :=
  XmlNode.mk "doi_batch" (set_root_attrs cfg.crossref_schema_version) none
    ((if add_comment then [comment_node cfg global_now last_commit] else [])
     ++ [set_head_node cfg pub_date arts, set_body_node cfg pub_date arts])

/-- Escape of one character in serialised text. -/
def xmlEscapeChar (c : Char) : List Char :=
  if c == '&' then "&amp;".data
  else if c == '<' then "&lt;".data
  else if c == '>' then "&gt;".data
  else [c]

/-- Escape of text content, as the serialiser applies it. -/
def xmlEscape (s : String) : String :=
  String.mk ((s.data.map xmlEscapeChar).flatten)

/-- Rendering of an attribute list. -/
def renderAttrs (attrs : List (String × String)) : String :=
  String.join (attrs.map (fun kv => " " ++ kv.1 ++ "=\"" ++ xmlEscape kv.2 ++ "\""))

mutual
/-- Modelled from the spec: serialisation is one deterministic rendering pass
over the assembled tree (the source delegates to minidom's `toxml`);
modelled as a canonical recursive printer. -/
def renderNode : XmlNode → String
  | .mk t attrs tx ch =>
    if t == "#comment" then "<!--" ++ tx.getD "" ++ "-->"
    else "<" ++ t ++ renderAttrs attrs ++ ">" ++ xmlEscape (tx.getD "")
      ++ renderForest ch ++ "</" ++ t ++ ">"
/-- Rendering of a forest of sibling nodes. -/
def renderForest : List XmlNode → String
  | [] => ""
  | n :: ns => renderNode n ++ renderForest ns
end

/-- Translation of `crossref_xml`: build the document for a batch and
serialise it. -/
def output_xml (cfg : CrossrefConfig) (arts : List PoaArticle) (pub_date : TmDate)
    (add_comment : Bool) (global_now : TmDate) (last_commit : String) : String :=
  "<?xml version=\"1.0\" encoding=\"utf-8\"?>"
    ++ renderNode (crossref_doc cfg arts pub_date add_comment global_now last_commit)

/-- Tags whose occurrence counts the batch-level theorems track. -/
def trackedTags : List String :=
  ["rel:program", "rel:related_item", "first_page", "elocation_id"]

/-- Formula of claim C1 read literally: the non-empty values among author
line, year, article title (or data title only when the article title is
absent), publisher, source, version, patent number, conference name and uri
(with its optional accessed suffix), each stripped of trailing periods,
joined with `". "`, with a single trailing period appended. -/
def claimC1_unstructured_text (ref : Citation) : String :=
  String.intercalate ". "
    ((([citation_author_line ref, ref.year,
        (if pyTruthy ref.article_title then ref.article_title else ref.data_title),
        citation_publisher ref, ref.source, ref.version,
        ref.patent, ref.conf_name, citation_uri ref].filterMap id).filter
          (fun s => !(s == ""))).map rstripDots) ++ "."

/-- Formula of the amended claim C1: the values present (not `None`) among
author line, year, article title, data title, publisher, source, version,
patent number, conference name and uri (with its optional accessed suffix) —
the data title included as its own value whenever present, not only when the
article title is absent — each stripped of trailing periods, joined with
`". "`, with a single trailing period appended. -/
def claimC1_amended_text (ref : Citation) : String :=
  String.intercalate ". "
    (([citation_author_line ref, ref.year, ref.article_title, ref.data_title,
       citation_publisher ref, ref.source, ref.version,
       ref.patent, ref.conf_name, citation_uri ref].filterMap id).map rstripDots) ++ "."

/-- Reference with every field absent, the base of the concrete examples. -/
def emptyRef : Citation :=
  { id := none, publication_type := none, source := none, authors := [],
    volume := none, issue := none, fpage := none, elocation_id := none,
    year := none, year_numeric := none, article_title := none, data_title := none,
    doi := none, isbn := none, accession := none, pmid := none, uri := none,
    date_in_citation := none, publisher_loc := none, publisher_name := none,
    version := none, patent := none, conf_name := none }

/-- Software reference carrying both an article title and a data title. -/
def bothTitlesRef : Citation :=
  { emptyRef with
    publication_type := some "software",
    article_title := some "A", data_title := some "B" }

/-- Reference of the spec's worked example: author Smith J, year 2020,
article title Example, uri `http://x`, nothing else. -/
def smithRef : Citation :=
  { emptyRef with
    publication_type := some "webpage",
    authors := [{ group_type := some "author", surname := some "Smith",
                  given_names := some "J", collab := none }],
    year := some "2020", article_title := some "Example", uri := some "http://x" }

/-- Reference carrying only an elocation id. -/
def elocRef : Citation :=
  { emptyRef with elocation_id := some "e09560" }

/-- Data-type reference carrying only a doi (and a data title). -/
def dataDoiRef : Citation :=
  { emptyRef with
    publication_type := some "data",
    doi := some "10.5061/dryad.cv323", data_title := some "Data from: example study" }

/-- Article with only the mandatory fields. -/
def emptyArticle : PoaArticle :=
  { doi := "10.7554/eLife.00001", manuscript := "00001", journal_title := "eLife",
    journal_issn := "2050-084X", title := "Article title", volume := none,
    elocation_id := none, abstract := none, digest := none, license := none,
    self_uri_list := [], datasets := [], ref_list := [], component_list := [],
    dates := [], elife_version_label := "" }

/-- Baseline configuration for the concrete runs. -/
def baseConfig : CrossrefConfig :=
  { crossref_schema_version := "4.4.1", batch_file_pre := "elife-crossref-",
    generator := "generator", depositor_name := "eLife",
    email_address := "production@example.org", registrant := "eLife",
    pub_date_types := ["pub"], year_of_first_volume := some 2011,
    reference_distribution_opts := none, doi_pattern := some "",
    component_doi_pattern := "", text_mining_pdf_pattern := none,
    text_mining_xml_pattern := none, elife_style_component_doi := false,
    component_license_ref := "", access_indicators_applies_to := [],
    archive_locations := [], face_markup := false, jats_abstract := false,
    elocation_id := true }

/-- Run date used by the concrete runs. -/
def runDate : TmDate := ⟨2021, 6, 1, 12, 0, 0⟩

/-- Fallback node for list indexing in concrete statements. -/
def fallbackNode : XmlNode := XmlNode.mk "" [] none []

/-- Configuration with an XML mining template configured and the PDF mining
template set to the empty string. -/
def cfgMiningXml : CrossrefConfig :=
  { baseConfig with
    text_mining_xml_pattern := some "https://cdn.example.org/\x7bmanuscript\x7d.xml",
    text_mining_pdf_pattern := some "" }

/-- Same configuration with no PDF mining template at all. -/
def cfgMiningXmlNoPdf : CrossrefConfig :=
  { cfgMiningXml with text_mining_pdf_pattern := none }

/-- Article with a usable license. -/
def licensedArticle : PoaArticle :=
  { emptyArticle with
    license := some { href := some "http://creativecommons.org/licenses/by/4.0/" } }

/-- Data-type reference with a doi, used by the first article of the C2 batch. -/
def dataRef1 : Citation :=
  { emptyRef with
    publication_type := some "data",
    doi := some "10.5061/dryad.0001", data_title := some "Dataset one" }

/-- Data-type reference with a doi, used by the second article of the C2 batch. -/
def dataRef2 : Citation :=
  { emptyRef with
    publication_type := some "data",
    doi := some "10.5061/dryad.0002", data_title := some "Dataset two" }

/-- First article of the two-article batch: one relation-worthy reference. -/
def relArticle1 : PoaArticle :=
  { emptyArticle with
    doi := "10.7554/eLife.00011", manuscript := "00011", ref_list := [dataRef1] }

/-- Second article of the two-article batch: one relation-worthy reference. -/
def relArticle2 : PoaArticle :=
  { emptyArticle with
    doi := "10.7554/eLife.00012", manuscript := "00012", ref_list := [dataRef2] }

/-- Legacy-schema configuration. -/
def cfgLegacy : CrossrefConfig :=
  { baseConfig with crossref_schema_version := "4.3.5" }

/-- Article with an elocation id and no references. -/
def elocArticle : PoaArticle :=
  { emptyArticle with elocation_id := some "e01234" }

/-- Two wall-clock instants one second apart. -/
def nowA : TmDate := ⟨2020, 1, 1, 0, 0, 0⟩

/-- Second wall-clock instant. -/
def nowB : TmDate := ⟨2020, 1, 1, 0, 0, 1⟩

/-- Component with a doi, used by the C10 witness. -/
def figComponent : Component :=
  { id := "fig1", title := "Figure 1", subtitle := none, mime_type := none,
    crossref_mime := none, permissions := [], doi := some "10.7554/eLife.00001.002",
    elife_component_id := "fig1", elife_prefix1 := "" }

/-- Article whose single reference carries an elocation id. -/
def elocRefArticle : PoaArticle := { emptyArticle with ref_list := [elocRef] }

theorem countTagList_append (t : String) (l1 l2 : List XmlNode) :
    countTagList t (l1 ++ l2) = countTagList t l1 + countTagList t l2 := by
  induction l1 with
  | nil => simp [countTagList]
  | cons x xs ih => simp [countTagList, ih]; omega

theorem countTagList_ite2 (t : String) (c : Prop) [Decidable c] (l1 l2 : List XmlNode) :
    countTagList t (if c then l1 else l2) = if c then countTagList t l1 else countTagList t l2 := by
  split <;> rfl

theorem countTagList_map_zero {α : Type} (t : String) (f : α → XmlNode) (l : List α)
    (h : ∀ x, countTag t (f x) = 0) : countTagList t (l.map f) = 0 := by
  induction l with
  | nil => rfl
  | cons x xs ih => simp [countTagList, h, ih]

theorem countTagList_map_one {α : Type} (t : String) (f : α → XmlNode) (l : List α)
    (h : ∀ x, countTag t (f x) = 1) : countTagList t (l.map f) = l.length := by
  induction l with
  | nil => rfl
  | cons x xs ih => simp [countTagList, h, ih]; omega

theorem any_ite (p : XmlNode → Bool) (c : Prop) [Decidable c] (l1 l2 : List XmlNode) :
    ((if c then l1 else l2).any p) = (if c then l1.any p else l2.any p) := by
  split <;> rfl

theorem str_beq_decide (s t : String) : (s == t) = decide (s = t) := by
  by_cases h : s = t <;> simp [h]

theorem do_unstructured_gate (ref : Citation) (h : do_unstructured_citation ref = true) :
    (pyTruthy ref.publication_type &&
      unstructuredContentTypes.contains (ref.publication_type.getD "")) = true := by
  cases hp : ref.publication_type with
  | none => simp [do_unstructured_citation, hp, pyTruthy] at h
  | some s =>
    by_cases hs : s = ""
    · subst hs; simp [do_unstructured_citation, hp, pyTruthy] at h
    · simp [do_unstructured_citation, hp, pyTruthy, hs] at h
      simp [pyTruthy, unstructuredContentTypes, hs]
      tauto

theorem unstructured_text_ne_empty (ref : Citation)
    (h : do_unstructured_citation ref = true) : ¬(unstructured_citation_text ref = "") := by
  have hgate := do_unstructured_gate ref h
  rw [unstructured_citation_text, hgate]
  simp only [if_true]
  intro hcontra
  have hlen := congrArg String.length hcontra
  rw [String.length_append] at hlen
  have h1 : (".").length = 1 := rfl
  have h0 : ("" : String).length = 0 := rfl
  omega

theorem do_unstructured_eq_claim (ref : Citation) :
    do_unstructured_citation ref =
      (decide (ref.publication_type ∈ ([some "confproc", some "patent", some "software",
          some "thesis", some "web", some "webpage"] : List (Option String)))
       || (ref.publication_type == some "preprint" && ref.doi == none)
       || (ref.publication_type == some "report" && ref.isbn == none)) := by
  cases h : ref.publication_type with
  | none => simp [do_unstructured_citation, h, pyTruthy]
  | some s =>
    by_cases hs : s = ""
    · subst hs; simp [do_unstructured_citation, h, pyTruthy]
    · simp [do_unstructured_citation, h, pyTruthy, hs, str_beq_decide]

theorem citation_any_unstructured (ref : Citation) (fm : Bool) (ver : String) :
    ((set_citation_children ref fm ver).any (fun n => n.tag == "unstructured_citation"))
      = do_unstructured_citation ref := by
  rcases hfa : filter_citation_authors ref with _ | ⟨a, rest⟩ <;>
    cases hdo : do_unstructured_citation ref
  · simp [set_citation_children, hfa, hdo, List.any_append, any_ite,
      set_unstructured_citation_nodes, add_clean_tag_node, add_inline_tag_node, XmlNode.tag]
  · have hne := unstructured_text_ne_empty ref hdo
    simp [set_citation_children, hfa, hdo, List.any_append, any_ite,
      set_unstructured_citation_nodes, add_clean_tag_node, add_inline_tag_node, XmlNode.tag, hne]
  · simp [set_citation_children, hfa, hdo, List.any_append, any_ite,
      set_unstructured_citation_nodes, add_clean_tag_node, add_inline_tag_node, XmlNode.tag]
  · have hne := unstructured_text_ne_empty ref hdo
    simp [set_citation_children, hfa, hdo, List.any_append, any_ite,
      set_unstructured_citation_nodes, add_clean_tag_node, add_inline_tag_node, XmlNode.tag, hne]

/-- C8: a citation entry includes an unstructured citation exactly when the
publication type is one of confproc, patent, software, thesis, web, webpage,
or the type is preprint with no doi, or the type is report with no isbn; for
report the rule depends only on the isbn being absent. -/
theorem C8_unstructured_citation_condition (ref : Citation) (fm : Bool) (ver : String) :
    ((set_citation_children ref fm ver).any (fun n => n.tag == "unstructured_citation"))
      = (decide (ref.publication_type ∈ ([some "confproc", some "patent", some "software",
            some "thesis", some "web", some "webpage"] : List (Option String)))
         || (ref.publication_type == some "preprint" && ref.doi == none)
         || (ref.publication_type == some "report" && ref.isbn == none)) :=
  (citation_any_unstructured ref fm ver).trans (do_unstructured_eq_claim ref)

/-- C1 counterexample: for a software reference carrying both an article
title and a data title, the emitted unstructured citation contains both
titles, while the claim's formula keeps only the article title. -/
theorem C1_both_titles_counterexample :
    do_unstructured_citation bothTitlesRef = true
    ∧ unstructured_citation_text bothTitlesRef = "A. B."
    ∧ claimC1_unstructured_text bothTitlesRef = "A."
    ∧ ¬unstructured_citation_text bothTitlesRef = claimC1_unstructured_text bothTitlesRef := by
  decide

/-- C1 (amended): for every reference given an unstructured citation, the
emitted text equals the amended formula — present values of author line,
year, article title, data title, publisher, source, version, patent number,
conference name, uri (with optional accessed suffix), trailing periods
stripped, joined with `". "` plus a final period — and the citation entry
carries an `unstructured_citation` node with exactly that text. -/
theorem C1_unstructured_text_amended (ref : Citation) (fm : Bool) (ver : String)
    (h : do_unstructured_citation ref = true) :
    unstructured_citation_text ref = claimC1_amended_text ref
    ∧ XmlNode.mk "unstructured_citation" [] (some (claimC1_amended_text ref)) []
        ∈ set_citation_children ref fm ver := by
  have hgate := do_unstructured_gate ref h
  have htext : unstructured_citation_text ref = claimC1_amended_text ref := by
    rw [unstructured_citation_text, hgate]
    simp [claimC1_amended_text]
  refine ⟨htext, ?_⟩
  have hne : ¬(unstructured_citation_text ref = "") := unstructured_text_ne_empty ref h
  have hne2 : ¬(claimC1_amended_text ref = "") := htext ▸ hne
  unfold set_citation_children
  refine List.mem_append_right _ ?_
  simp [h, set_unstructured_citation_nodes, hne, hne2, add_clean_tag_node, add_inline_tag_node,
    htext]

/-- Witness for C1 at the spec's worked example: the reference with author
Smith J, year 2020, article title Example and uri `http://x` yields exactly
the text `Smith J. 2020. Example. http://x.`. -/
theorem C1_unstructured_text_amended_witness :
    do_unstructured_citation smithRef = true
    ∧ unstructured_citation_text smithRef = "Smith J. 2020. Example. http://x."
    ∧ XmlNode.mk "unstructured_citation" [] (some "Smith J. 2020. Example. http://x.") []
        ∈ set_citation_children smithRef false "4.4.1" := by
  have h := C1_unstructured_text_amended smithRef false "4.4.1" (by decide)
  have he : claimC1_amended_text smithRef = "Smith J. 2020. Example. http://x." := by decide
  exact ⟨by decide, h.1.trans he, he ▸ h.2⟩

/-- C5: a reference triggers a cross-work relation entry exactly when its
type is data and it carries a truthy doi, accession, pmid or uri; the entry
holds at most one work relation; when triggered, its single identifier is the
first present in the order doi, accession, pmid, uri, with relationship type
references; the description comes from the data title when present. -/
theorem C5_citation_related_item (ref : Citation) :
    (do_citation_related_item ref
      = (ref.publication_type == some "data"
         && (pyTruthy ref.doi || pyTruthy ref.accession || pyTruthy ref.pmid || pyTruthy ref.uri)))
    ∧ ((citation_related_item_node ref).children.countP
        (fun n => n.tag == "rel:inter_work_relation") ≤ 1)
    ∧ (do_citation_related_item ref = true →
        (citation_related_item_node ref).children.filter
            (fun n => n.tag == "rel:inter_work_relation")
          = [set_related_item_work_relation_node "references"
               (if pyTruthy ref.doi then "doi"
                else if pyTruthy ref.accession then "accession"
                else if pyTruthy ref.pmid then "pmid" else "uri")
               (if pyTruthy ref.doi then ref.doi.getD ""
                else if pyTruthy ref.accession then ref.accession.getD ""
                else if pyTruthy ref.pmid then ref.pmid.getD "" else ref.uri.getD "")])
    ∧ ((citation_related_item_node ref).children.filter (fun n => n.tag == "rel:description")
        = (if pyTruthy ref.data_title then [XmlNode.mk "rel:description" [] ref.data_title []]
           else [])) := by
  refine ⟨?_, ?_, ?_, ?_⟩
  · cases hp : ref.publication_type with
    | none => simp [do_citation_related_item, hp, pyTruthy]
    | some s =>
      by_cases hs : s = "data"
      · subst hs; simp [do_citation_related_item, hp, pyTruthy]
      · simp [do_citation_related_item, hp, pyTruthy, hs]
  · rcases hid : citation_related_item_identifier ref with _ | ⟨t, v⟩ <;>
      by_cases hdt : pyTruthy ref.data_title = true <;>
        simp [citation_related_item_node, hid, hdt, XmlNode.children, XmlNode.tag,
          set_related_item_work_relation_node, List.countP_append]
  · intro h
    by_cases hd : pyTruthy ref.doi = true
    · simp [citation_related_item_node, citation_related_item_identifier, hd,
        XmlNode.children, XmlNode.tag, List.filter_append, set_related_item_work_relation_node]
    · by_cases ha : pyTruthy ref.accession = true
      · simp [citation_related_item_node, citation_related_item_identifier, hd, ha,
          XmlNode.children, XmlNode.tag, List.filter_append, set_related_item_work_relation_node]
      · by_cases hpm : pyTruthy ref.pmid = true
        · simp [citation_related_item_node, citation_related_item_identifier, hd, ha, hpm,
            XmlNode.children, XmlNode.tag, List.filter_append, set_related_item_work_relation_node]
        · by_cases hu : pyTruthy ref.uri = true
          · simp [citation_related_item_node, citation_related_item_identifier, hd, ha, hpm, hu,
              XmlNode.children, XmlNode.tag, List.filter_append,
              set_related_item_work_relation_node]
          · simp [do_citation_related_item, hd, ha, hpm, hu] at h
  · rcases hid : citation_related_item_identifier ref with _ | ⟨t, v⟩ <;>
      simp [citation_related_item_node, hid, XmlNode.children, XmlNode.tag,
        List.filter_append, set_related_item_work_relation_node]

/-- Witness for C5 at a data-type reference carrying only a doi: it triggers,
and its entry holds exactly one work relation with identifier type doi, plus
the description from the data title. -/
theorem C5_citation_related_item_witness :
    do_citation_related_item dataDoiRef = true
    ∧ (citation_related_item_node dataDoiRef).children.filter
        (fun n => n.tag == "rel:inter_work_relation")
      = [set_related_item_work_relation_node "references" "doi" "10.5061/dryad.cv323"]
    ∧ (citation_related_item_node dataDoiRef).children.filter
        (fun n => n.tag == "rel:description")
      = [XmlNode.mk "rel:description" [] (some "Data from: example study") []] := by
  refine ⟨by decide, ?_, ?_⟩
  · exact (C5_citation_related_item dataDoiRef).2.2.1 (by decide)
  · exact (C5_citation_related_item dataDoiRef).2.2.2

/-- C6: for a reference with a (truthy) elocation id, the elocation id is
written to the `first_page` tag for the legacy schema versions 4.3.5, 4.3.7
and 4.4.0, and to the dedicated `elocation_id` tag for every other version;
the counts of the two tags over the citation entry confirm the placement. -/
theorem C6_elocation_placement (ref : Citation) (fm : Bool) (ver : String) (e : String)
    (he : ref.elocation_id = some e) (hne : ¬e = "") :
    ((if ver ∈ legacyElocationVersions then XmlNode.mk "first_page" [] (some e) []
      else XmlNode.mk "elocation_id" [] (some e) []) ∈ set_citation_children ref fm ver)
    ∧ countTagList "elocation_id" (set_citation_children ref fm ver)
        = (if ver ∈ legacyElocationVersions then 0 else 1)
    ∧ countTagList "first_page" (set_citation_children ref fm ver)
        = (if pyTruthy ref.fpage then 1 else 0)
          + (if ver ∈ legacyElocationVersions then 1 else 0) := by
  refine ⟨?_, ?_, ?_⟩
  · unfold set_citation_children
    refine List.mem_append_left _ (List.mem_append_right _ ?_)
    simp only [he, pyTruthy, hne]
    by_cases hleg : ver ∈ legacyElocationVersions <;> simp [hleg, hne]
  · rcases hfa : filter_citation_authors ref with _ | ⟨a, rest⟩ <;>
      by_cases hleg : ver ∈ legacyElocationVersions <;>
        simp [set_citation_children, hfa, hleg, he, hne, pyTruthy,
          countTagList_append, countTagList_ite2, countTagList, countTag,
          set_unstructured_citation_nodes, add_clean_tag_node, add_inline_tag_node]
  · rcases hfa : filter_citation_authors ref with _ | ⟨a, rest⟩ <;>
      by_cases hleg : ver ∈ legacyElocationVersions <;>
        simp [set_citation_children, hfa, hleg, he, hne, pyTruthy,
          countTagList_append, countTagList_ite2, countTagList, countTag,
          set_unstructured_citation_nodes, add_clean_tag_node, add_inline_tag_node]

/-- Witness for C6 at a concrete reference under the legacy schema version
4.3.5. -/
theorem C6_elocation_placement_witness :
    ((if ("4.3.5" : String) ∈ legacyElocationVersions then
        XmlNode.mk "first_page" [] (some "e09560") []
      else XmlNode.mk "elocation_id" [] (some "e09560") [])
        ∈ set_citation_children elocRef false "4.3.5")
    ∧ countTagList "elocation_id" (set_citation_children elocRef false "4.3.5")
        = (if ("4.3.5" : String) ∈ legacyElocationVersions then 0 else 1)
    ∧ countTagList "first_page" (set_citation_children elocRef false "4.3.5")
        = (if pyTruthy elocRef.fpage then 1 else 0)
          + (if ("4.3.5" : String) ∈ legacyElocationVersions then 1 else 0) :=
  C6_elocation_placement elocRef false "4.3.5" "e09560" rfl (by decide)

theorem countTag_pubdate_zero (t : String) (ht : t ∈ trackedTags) (d : TmDate) :
    countTag t (set_publication_date_node d) = 0 := by
  fin_cases ht <;> simp [set_publication_date_node, countTag, countTagList]

theorem countTag_journal_metadata_zero (t : String) (ht : t ∈ trackedTags) (a : PoaArticle) :
    countTag t (journal_metadata_node a) = 0 := by
  fin_cases ht <;> simp [journal_metadata_node, countTag, countTagList]

theorem countTag_journal_issue_zero (t : String) (ht : t ∈ trackedTags)
    (cfg : CrossrefConfig) (rd : TmDate) (a : PoaArticle) :
    countTag t (journal_issue_node cfg rd a) = 0 := by
  fin_cases ht <;>
    simp [journal_issue_node, set_publication_date_node, countTag, countTagList]

theorem countTag_titles_zero (t : String) (ht : t ∈ trackedTags)
    (cfg : CrossrefConfig) (a : PoaArticle) :
    countTag t (set_titles_node cfg a) = 0 := by
  fin_cases ht <;>
    simp [set_titles_node, add_clean_tag_node, add_inline_tag_node, countTag, countTagList]

theorem countTag_contributors_zero (t : String) (ht : t ∈ trackedTags) (a : PoaArticle) :
    countTag t (contributors_node a) = 0 := by
  fin_cases ht <;> simp [contributors_node, countTag, countTagList]

theorem countTag_fundref_zero (t : String) (ht : t ∈ trackedTags) (a : PoaArticle) :
    countTag t (fundref_node a) = 0 := by
  fin_cases ht <;> simp [fundref_node, countTag, countTagList]

theorem countTagList_abstract_zero (t : String) (ht : t ∈ trackedTags)
    (cfg : CrossrefConfig) (a : PoaArticle) :
    countTagList t (set_abstract_nodes cfg a) = 0 := by
  fin_cases ht <;>
    simp [set_abstract_nodes, countTagList_ite2, countTag, countTagList]

theorem countTagList_digest_zero (t : String) (ht : t ∈ trackedTags)
    (cfg : CrossrefConfig) (a : PoaArticle) :
    countTagList t (set_digest_nodes cfg a) = 0 := by
  fin_cases ht <;>
    simp [set_digest_nodes, countTagList_ite2, countTag, countTagList]

theorem countTag_publisher_item_zero (t : String) (ht : t ∈ trackedTags)
    (cfg : CrossrefConfig) (a : PoaArticle) :
    countTag t (publisher_item_node cfg a) = 0 := by
  fin_cases ht <;>
    simp [publisher_item_node, countTag, countTagList, countTagList_append, countTagList_ite2]

theorem countTagList_access_zero (t : String) (ht : t ∈ trackedTags)
    (cfg : CrossrefConfig) (a : PoaArticle) :
    countTagList t (set_access_indicators_nodes cfg a) = 0 := by
  have hmap : countTagList t (cfg.access_indicators_applies_to.map (fun scope =>
      XmlNode.mk "ai:license_ref" [("applies_to", scope)]
        (a.license.bind ArticleLicense.href) [])) = 0 :=
    countTagList_map_zero t _ _ (fun x => by fin_cases ht <;> rfl)
  fin_cases ht <;>
    simp [set_access_indicators_nodes, countTagList_ite2, countTag, countTagList, hmap]

theorem countTagList_archive_zero (t : String) (ht : t ∈ trackedTags) (l : List String) :
    countTagList t (set_archive_locations_nodes l) = 0 := by
  have hmap : countTagList t (l.map (fun n => XmlNode.mk "archive" [("name", n)] none [])) = 0 :=
    countTagList_map_zero t _ _ (fun x => by fin_cases ht <;> rfl)
  fin_cases ht <;>
    simp [set_archive_locations_nodes, countTagList_ite2, countTag, countTagList, hmap]

theorem countTag_doi_data_zero (t : String) (ht : t ∈ trackedTags)
    (cfg : CrossrefConfig) (a : PoaArticle) :
    countTag t (set_doi_data_node cfg a) = 0 := by
  fin_cases ht <;>
    simp [set_doi_data_node, set_collection_nodes, countTag, countTagList,
      countTagList_append, countTagList_ite2]

theorem countTag_component_zero (t : String) (ht : t ∈ trackedTags)
    (cfg : CrossrefConfig) (a : PoaArticle) (comp : Component) :
    countTag t (component_node cfg a comp) = 0 := by
  rcases hu : generate_resource_url_component cfg a comp with _ | u <;>
    fin_cases ht <;>
      simp [component_node, hu, set_subtitle_nodes, set_component_permissions_nodes,
        add_clean_tag_node, add_inline_tag_node, countTag, countTagList,
        countTagList_append, countTagList_ite2]

theorem countTagList_component_list_zero (t : String) (ht : t ∈ trackedTags)
    (cfg : CrossrefConfig) (a : PoaArticle) :
    countTagList t (set_component_list_nodes cfg a) = 0 := by
  have hmap : countTagList t (a.component_list.map (component_node cfg a)) = 0 :=
    countTagList_map_zero t _ _ (fun c => countTag_component_zero t ht cfg a c)
  fin_cases ht <;>
    simp [set_component_list_nodes, countTagList_ite2, countTag, countTagList, hmap]

theorem countTag_citation_rel_zero (t : String)
    (ht : t ∈ (["rel:program", "rel:related_item"] : List String))
    (ref : Citation) (i : Nat) (fm : Bool) (ver : String) :
    countTag t (set_citation_node ref i fm ver) = 0 := by
  rcases hfa : filter_citation_authors ref with _ | ⟨a, rest⟩ <;>
    fin_cases ht <;>
      simp [set_citation_node, set_citation_children, hfa, countTag, countTagList,
        countTagList_append, countTagList_ite2, set_unstructured_citation_nodes,
        add_clean_tag_node, add_inline_tag_node]

theorem countTag_citation_fp (ref : Citation) (i : Nat) (fm : Bool) (ver : String) :
    countTag "first_page" (set_citation_node ref i fm ver)
      = (if pyTruthy ref.fpage then 1 else 0)
        + (if pyTruthy ref.elocation_id then
            (if ver ∈ legacyElocationVersions then 1 else 0) else 0) := by
  rcases hfa : filter_citation_authors ref with _ | ⟨a, rest⟩ <;>
    by_cases hleg : ver ∈ legacyElocationVersions <;>
      simp [set_citation_node, set_citation_children, hfa, hleg, countTag, countTagList,
        countTagList_append, countTagList_ite2, set_unstructured_citation_nodes,
        add_clean_tag_node, add_inline_tag_node]

theorem countTag_citation_eloc (ref : Citation) (i : Nat) (fm : Bool) (ver : String) :
    countTag "elocation_id" (set_citation_node ref i fm ver)
      = (if pyTruthy ref.elocation_id then
          (if ver ∈ legacyElocationVersions then 0 else 1) else 0) := by
  rcases hfa : filter_citation_authors ref with _ | ⟨a, rest⟩ <;>
    by_cases hleg : ver ∈ legacyElocationVersions <;>
      simp [set_citation_node, set_citation_children, hfa, hleg, countTag, countTagList,
        countTagList_append, countTagList_ite2, set_unstructured_citation_nodes,
        add_clean_tag_node, add_inline_tag_node]

theorem countTag_dataset_entry (t : String) (ht : t ∈ trackedTags) (d : Dataset) :
    countTag t (dataset_related_item_node d)
      = (if t == "rel:related_item" then 1 else 0) := by
  fin_cases ht <;>
    simp [dataset_related_item_node, set_related_item_work_relation_node,
      countTag, countTagList, countTagList_append, countTagList_ite2]

theorem countTag_citation_entry (t : String) (ht : t ∈ trackedTags) (ref : Citation) :
    countTag t (citation_related_item_node ref)
      = (if t == "rel:related_item" then 1 else 0) := by
  rcases hid : citation_related_item_identifier ref with _ | ⟨ty, v⟩ <;>
    fin_cases ht <;>
      simp [citation_related_item_node, hid, set_related_item_work_relation_node,
        countTag, countTagList, countTagList_append, countTagList_ite2]

theorem article_entries_counts (t : String) (ht : t ∈ trackedTags) (a : PoaArticle) :
    countTagList t (article_relation_entries a)
      = (if t == "rel:related_item" then
          (a.datasets.filter do_dataset_related_item).length
            + (a.ref_list.filter do_citation_related_item).length
         else 0) := by
  rw [article_relation_entries, countTagList_append]
  by_cases hrel : t = "rel:related_item"
  · subst hrel
    rw [countTagList_map_one _ _ _ (fun d => countTag_dataset_entry _ ht d),
      countTagList_map_one _ _ _ (fun r => countTag_citation_entry _ ht r)]
    simp
  · have hb : (t == "rel:related_item") = false := by
      simp [hrel]
    rw [countTagList_map_zero _ _ _ (fun d => by rw [countTag_dataset_entry _ ht d, hb]; rfl),
      countTagList_map_zero _ _ _ (fun r => by rw [countTag_citation_entry _ ht r, hb]; rfl)]
    simp [hb]

theorem countTagList_citation_list_rel_zero (t : String)
    (ht : t ∈ (["rel:program", "rel:related_item"] : List String))
    (cfg : CrossrefConfig) (a : PoaArticle) :
    countTagList t (set_citation_list_nodes cfg a) = 0 := by
  have hmap : countTagList t (a.ref_list.enum.map (fun p =>
      set_citation_node p.2 (p.1 + 1) cfg.face_markup cfg.crossref_schema_version)) = 0 :=
    countTagList_map_zero t _ _ (fun p => countTag_citation_rel_zero t ht p.2 (p.1 + 1) _ _)
  fin_cases ht <;>
    simp [set_citation_list_nodes, countTagList_ite2, countTag, countTagList, hmap]

theorem countTag_head_zero (t : String) (ht : t ∈ trackedTags)
    (cfg : CrossrefConfig) (pd : TmDate) (arts : List PoaArticle) :
    countTag t (set_head_node cfg pd arts) = 0 := by
  fin_cases ht <;>
    simp [set_head_node, set_depositor_node, countTag, countTagList]

theorem countTag_comment_zero (t : String) (ht : t ∈ trackedTags)
    (cfg : CrossrefConfig) (g : TmDate) (c : String) :
    countTag t (comment_node cfg g c) = 0 := by
  fin_cases ht <;> simp [comment_node, countTag, countTagList]

theorem countTag_mk (t tg : String) (attrs : List (String × String)) (tx : Option String)
    (ch : List XmlNode) :
    countTag t (XmlNode.mk tg attrs tx ch) = (if tg == t then 1 else 0) + countTagList t ch := rfl

theorem countTag_journal_article (t : String) (ht : t ∈ trackedTags)
    (cfg : CrossrefConfig) (rd : TmDate) (wp : Bool) (entries : List XmlNode) (a : PoaArticle) :
    countTag t (journal_article_node cfg rd wp entries a)
      = (if wp then (if "rel:program" == t then 1 else 0) + countTagList t entries else 0)
        + countTagList t (set_citation_list_nodes cfg a) := by
  have h1 := countTag_titles_zero t ht cfg a
  have h2 := countTag_contributors_zero t ht a
  have h3 := countTagList_abstract_zero t ht cfg a
  have h4 := countTagList_digest_zero t ht cfg a
  have h5 := countTag_pubdate_zero t ht (get_pub_date cfg rd a)
  have h6 := countTag_publisher_item_zero t ht cfg a
  have h7 := countTag_fundref_zero t ht a
  have h8 := countTagList_access_zero t ht cfg a
  have h9 := countTagList_archive_zero t ht cfg.archive_locations
  have h10 := countTag_doi_data_zero t ht cfg a
  have h11 := countTagList_component_list_zero t ht cfg a
  have htop : ("journal_article" == t) = false := by fin_cases ht <;> rfl
  cases wp with
  | false =>
    rw [journal_article_node, countTag_mk, htop]
    rw [countTagList_append, countTagList_append, countTagList_append, countTagList_append,
      countTagList_append, countTagList_append, countTagList_append, countTagList_append]
    simp only [countTagList, List.nil_append, h1, h2, h3, h4, h5, h6, h7, h8, h9, h10, h11,
      Bool.false_eq_true, if_false, Nat.add_zero, Nat.zero_add]
    simp only [List.append_eq, List.nil_append, h3, Nat.zero_add]
  | true =>
    rw [journal_article_node, countTag_mk, htop]
    rw [countTagList_append, countTagList_append, countTagList_append, countTagList_append,
      countTagList_append, countTagList_append, countTagList_append, countTagList_append]
    simp only [countTagList, List.nil_append, h1, h2, h3, h4, h5, h6, h7, h8, h9, h10, h11,
      Bool.false_eq_true, if_false, Nat.add_zero, Nat.zero_add, if_true, countTag_mk]
    simp only [List.append_eq, List.nil_append, h3, Nat.zero_add]

theorem countTag_journal (t : String) (ht : t ∈ trackedTags)
    (cfg : CrossrefConfig) (rd : TmDate) (wp : Bool) (entries : List XmlNode) (a : PoaArticle) :
    countTag t (journal_node cfg rd wp entries a)
      = (if wp then (if "rel:program" == t then 1 else 0) + countTagList t entries else 0)
        + countTagList t (set_citation_list_nodes cfg a) := by
  have htop : ("journal" == t) = false := by fin_cases ht <;> rfl
  rw [journal_node, countTag_mk, htop]
  simp only [countTagList, Bool.false_eq_true, if_false, Nat.zero_add, Nat.add_zero,
    countTag_journal_metadata_zero t ht, countTag_journal_issue_zero t ht,
    countTag_journal_article t ht]

theorem set_body_single (cfg : CrossrefConfig) (rd : TmDate) (a : PoaArticle) :
    set_body_node cfg rd [a]
      = XmlNode.mk "body" [] none
          [journal_node cfg rd (do_relations_program a) (article_relation_entries a) a] := by
  cases hdo : do_relations_program a <;>
    simp [set_body_node, relations_owner, hdo, List.enum, List.enumFrom]

theorem countTag_doc_single (t : String) (ht : t ∈ trackedTags)
    (cfg : CrossrefConfig) (a : PoaArticle) (pd : TmDate) (ac : Bool)
    (gn : TmDate) (lc : String) :
    countTag t (crossref_doc cfg [a] pd ac gn lc)
      = (if do_relations_program a then
          (if "rel:program" == t then 1 else 0)
            + countTagList t (article_relation_entries a) else 0)
        + countTagList t (set_citation_list_nodes cfg a) := by
  have htop : ("doi_batch" == t) = false := by fin_cases ht <;> rfl
  rw [crossref_doc, countTag_mk, htop, set_body_single]
  rw [countTagList_append, countTagList_ite2]
  simp only [countTagList, countTag_mk, Bool.false_eq_true, if_false, Nat.zero_add,
    Nat.add_zero, countTag_head_zero t ht, countTag_comment_zero t ht, ite_self,
    countTag_journal t ht]
  have hbody : ("body" == t) = false := by fin_cases ht <;> rfl
  simp [hbody]

theorem filter_length_zero {α : Type} (p : α → Bool) (l : List α) (h : l.any p = false) :
    (l.filter p).length = 0 := by
  have : l.filter p = [] := by
    rw [List.filter_eq_nil_iff]
    rw [List.any_eq_false] at h
    exact h
  rw [this]
  rfl

/-- C4: in a single-article assembly, the journal record holds exactly one
relations container when the article has any relation-worthy dataset or
reference and none otherwise, and the container's related items are exactly
the dataset-worthy plus citation-worthy entries (so two relation-worthy
references give one container holding two entries, and no relation-worthy
dataset or reference gives no container). -/
theorem C4_single_relations_container (cfg : CrossrefConfig) (a : PoaArticle)
    (pd gn : TmDate) (ac : Bool) (lc : String) :
    countTag "rel:program" (crossref_doc cfg [a] pd ac gn lc)
      = (if do_relations_program a then 1 else 0)
    ∧ countTag "rel:related_item" (crossref_doc cfg [a] pd ac gn lc)
      = (a.datasets.filter do_dataset_related_item).length
        + (a.ref_list.filter do_citation_related_item).length := by
  constructor
  · rw [countTag_doc_single "rel:program" (by decide) cfg a pd ac gn lc,
      article_entries_counts "rel:program" (by decide) a,
      countTagList_citation_list_rel_zero "rel:program" (by decide) cfg a]
    simp
  · rw [countTag_doc_single "rel:related_item" (by decide) cfg a pd ac gn lc,
      article_entries_counts "rel:related_item" (by decide) a,
      countTagList_citation_list_rel_zero "rel:related_item" (by decide) cfg a]
    cases hdo : do_relations_program a
    · have hd : a.datasets.any do_dataset_related_item = false := by
        rcases Bool.or_eq_false_iff.mp (by rw [do_relations_program] at hdo; exact hdo)
          with ⟨h1, h2⟩
        exact h1
      have hc : a.ref_list.any do_citation_related_item = false := by
        rcases Bool.or_eq_false_iff.mp (by rw [do_relations_program] at hdo; exact hdo)
          with ⟨h1, h2⟩
        exact h2
      simp [filter_length_zero _ _ hd, filter_length_zero _ _ hc]
    · simp

/-- C7 (amended): for runs differing only in the configured schema version,
on an article whose single reference carries an elocation id (and no first
page), the whole output document places the elocation id in the reference's
`first_page` field under a legacy version and in the dedicated
`elocation_id` field under any other version. -/
theorem C7_elocation_version_amended (cfg : CrossrefConfig) (pd gn : TmDate) (ac : Bool)
    (lc : String) (a : PoaArticle) (r : Citation) (e : String)
    (hr : a.ref_list = [r]) (he : r.elocation_id = some e) (hne : ¬e = "")
    (hfp : r.fpage = none) :
    (cfg.crossref_schema_version ∈ legacyElocationVersions →
      countTag "first_page" (crossref_doc cfg [a] pd ac gn lc) = 1
      ∧ countTag "elocation_id" (crossref_doc cfg [a] pd ac gn lc) = 0
      ∧ XmlNode.mk "first_page" [] (some e) []
          ∈ set_citation_children r cfg.face_markup cfg.crossref_schema_version)
    ∧ (cfg.crossref_schema_version ∉ legacyElocationVersions →
      countTag "first_page" (crossref_doc cfg [a] pd ac gn lc) = 0
      ∧ countTag "elocation_id" (crossref_doc cfg [a] pd ac gn lc) = 1
      ∧ XmlNode.mk "elocation_id" [] (some e) []
          ∈ set_citation_children r cfg.face_markup cfg.crossref_schema_version) := by
  have hcl : set_citation_list_nodes cfg a
      = [XmlNode.mk "citation_list" [] none
          [set_citation_node r 1 cfg.face_markup cfg.crossref_schema_version]] := by
    simp [set_citation_list_nodes, hr, List.enum, List.enumFrom]
  have hcount1 := countTag_doc_single "first_page" (by decide) cfg a pd ac gn lc
  have hcount2 := countTag_doc_single "elocation_id" (by decide) cfg a pd ac gn lc
  rw [article_entries_counts "first_page" (by decide) a, hcl] at hcount1
  rw [article_entries_counts "elocation_id" (by decide) a, hcl] at hcount2
  simp only [countTagList, countTag_mk, Nat.add_zero, Nat.zero_add] at hcount1 hcount2
  rw [countTag_citation_fp] at hcount1
  rw [countTag_citation_eloc] at hcount2
  rw [he] at hcount1 hcount2
  rw [hfp] at hcount1
  have hpt : pyTruthy (some e) = true := by simp [pyTruthy, hne]
  rw [hpt] at hcount1 hcount2
  constructor
  · intro hleg
    refine ⟨?_, ?_, ?_⟩
    · rw [hcount1]; simp [pyTruthy, hleg, ite_self]
    · rw [hcount2]; simp [hleg, ite_self]
    · unfold set_citation_children
      refine List.mem_append_left _ (List.mem_append_right _ ?_)
      simp only [he, pyTruthy, hne]
      simp [hleg, hne]
  · intro hleg
    refine ⟨?_, ?_, ?_⟩
    · rw [hcount1]; simp [pyTruthy, hleg, ite_self]
    · rw [hcount2]; simp [hleg, ite_self]
    · unfold set_citation_children
      refine List.mem_append_left _ (List.mem_append_right _ ?_)
      simp only [he, pyTruthy, hne]
      simp [hleg, hne]

/-- Witness for the amended C7 at a concrete legacy-version run. -/
theorem C7_elocation_version_amended_witness :
    countTag "first_page" (crossref_doc cfgLegacy [elocRefArticle] runDate false nowA "c0ffee") = 1
    ∧ countTag "elocation_id"
        (crossref_doc cfgLegacy [elocRefArticle] runDate false nowA "c0ffee") = 0
    ∧ XmlNode.mk "first_page" [] (some "e09560") []
        ∈ set_citation_children elocRef cfgLegacy.face_markup cfgLegacy.crossref_schema_version :=
  (C7_elocation_version_amended cfgLegacy runDate nowA false "c0ffee" elocRefArticle
    elocRef "e09560" rfl rfl (by decide) rfl).1 (by decide)

/-- C7 counterexample: on an article having an elocation id and no
references, the legacy-version run produces no first-page field anywhere in
the output (and no dedicated elocation field either); the elocation id goes
to the version-independent `item_number` element instead. -/
theorem C7_no_references_counterexample :
    cfgLegacy.crossref_schema_version ∈ legacyElocationVersions
    ∧ elocArticle.ref_list.isEmpty = true
    ∧ pyTruthy elocArticle.elocation_id = true
    ∧ countTag "first_page" (crossref_doc cfgLegacy [elocArticle] runDate false nowA "c0ffee") = 0
    ∧ countTag "elocation_id"
        (crossref_doc cfgLegacy [elocArticle] runDate false nowA "c0ffee") = 0
    ∧ countTagText "item_number" (some "e01234")
        (crossref_doc cfgLegacy [elocArticle] runDate false nowA "c0ffee") = 1 := by
  decide

/-- C2, code behaviour at the failing input: in a batch of two articles that
each carry one relation-worthy reference, the first journal record holds one
relations container with both articles' entries and the second journal
record holds none, although the second article needs relation entries too —
the container handle is an attribute of the batch object, never reset
between articles. -/
theorem C2_batch_shared_relations_container :
    do_relations_program relArticle1 = true
    ∧ do_relations_program relArticle2 = true
    ∧ countTag "rel:program"
        ((set_body_node baseConfig runDate [relArticle1, relArticle2]).children.getD 0
          fallbackNode) = 1
    ∧ countTag "rel:related_item"
        ((set_body_node baseConfig runDate [relArticle1, relArticle2]).children.getD 0
          fallbackNode) = 2
    ∧ countTag "rel:program"
        ((set_body_node baseConfig runDate [relArticle1, relArticle2]).children.getD 1
          fallbackNode) = 0
    ∧ countTag "rel:related_item"
        ((set_body_node baseConfig runDate [relArticle1, relArticle2]).children.getD 1
          fallbackNode) = 0 := by
  decide

/-- C3, code behaviour at the failing input: with a usable license and a
configured (truthy) XML mining template, setting the PDF mining template to
the empty string suppresses the XML mining resource entirely, because
`do_set_collection_text_mining_xml` compares the PDF template — not the XML
one — against the empty string; removing the PDF template re-enables the
lone XML mining item. -/
theorem C3_xml_mining_requires_pdf_template :
    has_license licensedArticle = true
    ∧ pyTruthy cfgMiningXml.text_mining_xml_pattern = true
    ∧ do_set_collection_text_mining_xml cfgMiningXml = false
    ∧ (set_collection_nodes cfgMiningXml licensedArticle).length = 0
    ∧ countTagList "item" (set_collection_nodes cfgMiningXmlNoPdf licensedArticle) = 1 := by
  decide

/-- C9 (amended): with the generation comment disabled, two assembly runs on
the same article list, configuration and injected clock instant produce
identical serialised output whatever the global wall clock and repository
state are. -/
theorem C9_clock_determinism_amended (cfg : CrossrefConfig) (arts : List PoaArticle)
    (pd : TmDate) (n1 n2 : TmDate) (c1 c2 : String) :
    output_xml cfg arts pd false n1 c1 = output_xml cfg arts pd false n2 c2 := rfl

set_option maxRecDepth 100000 in
/-- C9 counterexample: with the default comment enabled, two runs with the
same injected clock instant but global wall clocks one second apart produce
different serialised output. -/
theorem C9_comment_clock_counterexample :
    ¬output_xml baseConfig [emptyArticle] runDate true nowA "4425f33"
      = output_xml baseConfig [emptyArticle] runDate true nowB "4425f33" := by
  decide

/-- C10: for a component with a doi, when the resource URL cannot be
generated (`None` or the empty string), the component entry carries no
doi-data block at all — its doi element is omitted along with the
resource. -/
theorem C10_component_doi_data_omitted (cfg : CrossrefConfig) (a : PoaArticle) (comp : Component)
    (h : generate_resource_url_component cfg a comp = none
         ∨ generate_resource_url_component cfg a comp = some "") :
    countTag "doi_data" (component_node cfg a comp) = 0
    ∧ countTag "doi" (component_node cfg a comp) = 0 := by
  rcases h with h | h <;>
    constructor <;>
      simp [component_node, h, set_subtitle_nodes, set_component_permissions_nodes,
        add_clean_tag_node, add_inline_tag_node, countTag, countTagList,
        countTagList_append, countTagList_ite2]

/-- Witness for C10: an empty component URL template formats to the empty
string, and the component entry omits the doi-data block. -/
theorem C10_component_doi_data_omitted_witness :
    generate_resource_url_component baseConfig emptyArticle figComponent = some ""
    ∧ countTag "doi_data" (component_node baseConfig emptyArticle figComponent) = 0
    ∧ countTag "doi" (component_node baseConfig emptyArticle figComponent) = 0 := by
  have h := C10_component_doi_data_omitted baseConfig emptyArticle figComponent
    (Or.inr (by decide))
  exact ⟨by decide, h.1, h.2⟩

end Crossref
